import Mathlib

/-!
Shallow embedding of the spectrogram-video frame-synchronization and
incremental-rendering engine of the seisa repository
(src/lib/seisa/visualization/spectrogram_video.py), together with proofs of
the specification's claims about it.

Times, durations and pixel positions are modelled as rationals (the Python
code uses floats; no claim under scrutiny depends on rounding of binary
floating point).  Python runtime failures (ZeroDivisionError on division by
zero, IndexError on out-of-range list indexing) are modelled with an
`Except` result.
-/

/-- Python runtime errors that the modelled code can raise. -/
inductive PyErr where
  | zeroDivisionError : PyErr
  | indexError : PyErr
deriving DecidableEq

/-- The mutable matplotlib figure artifacts touched by
`SpectrogramVideo.make_frame`: the two playhead marker lines (`spec_line`,
`wf_line`), the time label (`time_box`, modelled by the timestamp it
displays), the progress waveform (`wf_progress`, modelled by the end
timestamp passed to `trace.trim`), the visibility flags set in the
non-animated branch, and the color of the full waveform (`wf_full`). -/
structure FigState where
  spec_line_x : ℚ
  wf_line_x : ℚ
  time_text : ℚ
  wf_progress_end : ℚ
  spec_line_visible : Bool
  wf_line_visible : Bool
  time_box_visible : Bool
  wf_progress_visible : Bool
  wf_full_black : Bool
deriving DecidableEq

/-- A rendered raster image.  `mplfig_to_npimage` renders the current
figure, so an image is determined by the figure state it was rendered
from. -/
abbrev Image := FigState

/-- The render state of a `SpectrogramVideo` instance: the fields of the
Python object that `make_frame` reads or writes (`framecounter`,
`frame_times`, `n_frames`, `ax_width`, `last_playhead_pos`, `animate`,
`cache`) together with the figure artifacts. -/
structure RenderState where
  framecounter : ℕ
  frame_times : List ℚ
  n_frames : ℕ
  ax_width : ℚ
  last_playhead_pos : ℚ
  animate : Bool
  cache : Option Image
  fig : FigState
deriving DecidableEq

/-- Python list indexing `xs[i]`: negative indices wrap once from the end;
`none` models an IndexError. -/
def pyIndex (xs : List ℚ) (i : ℤ) : Option ℚ :=
  let j : ℤ := if i < 0 then i + xs.length else i
  if 0 ≤ j then xs[j.toNat]? else none

/-- The frame index used by `make_frame`: the frame counter, clamped to
`len(frame_times) - 1` when it is at least `len(frame_times)`
(spectrogram_video.py lines 134 and 138-140). -/
def clamped_index (s : RenderState) : ℤ :=
  if (s.framecounter : ℤ) ≥ (s.frame_times.length : ℤ) then
    (s.frame_times.length : ℤ) - 1
  else
    (s.framecounter : ℤ)

/-- The playhead displacement computed at spectrogram_video.py line 144:
`playhead_step = k * (self.ax_width / self.n_frames) - self.last_playhead_pos`
(meaningful only when `n_frames ≠ 0`; `make_frame` raises before using it
otherwise). -/
def playhead_step (s : RenderState) : ℚ :=
  (clamped_index s : ℚ) * (s.ax_width / (s.n_frames : ℚ)) - s.last_playhead_pos

/-- The fall-through part of `make_frame` after the cached-image checks
(spectrogram_video.py lines 149-171): add the displacement to
`last_playhead_pos` (line 150), update the animated artifacts and add the
displacement a second time (lines 152-159) or hide the artifacts
(lines 160-165), then advance the frame counter, render the figure and
store the image in the cache (lines 167-169). -/
def fresh_render (s : RenderState) (k : ℤ) (step : ℚ) :
    Except PyErr (Image × RenderState) :=
  let s1 := { s with last_playhead_pos := s.last_playhead_pos + step }
  if s1.animate then
    match pyIndex s1.frame_times k with
    | none => Except.error PyErr.indexError
    | some ft =>
      let fig1 := { s1.fig with
        spec_line_x := ft,
        wf_line_x := ft,
        time_text := ft,
        wf_progress_end := ft }
      let s2 := { s1 with
        fig := fig1,
        last_playhead_pos := s1.last_playhead_pos + step }
      let img := s2.fig
      Except.ok (img, { s2 with framecounter := s2.framecounter + 1,
                                cache := some img })
  else
    let fig1 := { s1.fig with
      spec_line_visible := false,
      wf_line_visible := false,
      time_box_visible := false,
      wf_progress_visible := false,
      wf_full_black := true }
    let s2 := { s1 with fig := fig1 }
    let img := s2.fig
    Except.ok (img, { s2 with framecounter := s2.framecounter + 1,
                              cache := some img })

/-- `SpectrogramVideo.make_frame` (spectrogram_video.py lines 125-171).
The timestamp argument `t` is accepted, as in the source, and never used.
Returns the produced image and the successor render state, or the Python
runtime error the call would raise. -/
def make_frame (t : ℚ) (s : RenderState) : Except PyErr (Image × RenderState) :=
  match s.animate, s.cache with
  | false, some img =>
      Except.ok (img, { s with framecounter := s.framecounter + 1 })
  | _, _ =>
      if s.n_frames = 0 then
        Except.error PyErr.zeroDivisionError
      else
        let k := clamped_index s
        let step := playhead_step s
        match s.cache with
        | some img =>
          if step ≤ 20 then
            Except.ok (img, { s with framecounter := s.framecounter + 1 })
          else
            fresh_render s k step
        | none => fresh_render s k step

/-- The speed-up factor computation of `SpectrogramVideo.render_moviepy`
(spectrogram_video.py lines 182-185) and `render_mpl_new` (lines 251-254):
`speed_up_factor = seismo_dur / audio_dur`, where each duration is the
difference of the supplied end and start times (in the source the end time
of a trace is `stats.endtime + stats.delta`).  There is no validation; the
only possible failure is Python's ZeroDivisionError when the audio duration
is exactly zero. -/
def compute_speed_up (original_start original_end audio_start audio_end : ℚ) :
    Except PyErr ℚ :=
  let seismo_dur := original_end - original_start
  let audio_dur := audio_end - audio_start
  if audio_dur = 0 then Except.error PyErr.zeroDivisionError
  else Except.ok (seismo_dur / audio_dur)

/-- Python 3 `round` on an exact value: round half to even. -/
def pyRound (q : ℚ) : ℤ :=
  let f := ⌊q⌋
  let r := q - (f : ℚ)
  if r < 1 / 2 then f
  else if 1 / 2 < r then f + 1
  else if f % 2 = 0 then f else f + 1

/-- Python `int` on an exact value: truncation toward zero. -/
def pyInt (q : ℚ) : ℤ :=
  if q < 0 then -⌊-q⌋ else ⌊q⌋

/-- The frame schedule of `SpectrogramVideo.render_moviepy`
(spectrogram_video.py lines 187-193): `n_frames = int(round(audio_dur * fps))`,
`delta_frame = speed_up_factor / fps`,
`frame_times = [starttime + x * delta_frame for x in range(n_frames)]`.
Each entry is paired with its frame index `x` drawn from `range(n_frames)`. -/
def build_schedule_moviepy (original_start speed_up_factor fps audio_dur : ℚ) :
    List (ℕ × ℚ) :=
  let n_frames := (pyRound (audio_dur * fps)).toNat
  let delta_frame := speed_up_factor / fps
  (List.range n_frames).map (fun x => (x, original_start + (x : ℚ) * delta_frame))

/-- The frame schedule of `SpectrogramVideo.render_mpl_new`
(spectrogram_video.py lines 256-260): identical to the moviepy schedule
except that the frame count is `n_frames = int(audio_dur * fps)`
(truncation, no rounding). -/
def build_schedule_mpl_new (original_start speed_up_factor fps audio_dur : ℚ) :
    List (ℕ × ℚ) :=
  let n_frames := (pyInt (audio_dur * fps)).toNat
  let delta_frame := speed_up_factor / fps
  (List.range n_frames).map (fun x => (x, original_start + (x : ℚ) * delta_frame))

/-- Whether a `make_frame` call on state `s` reaches the raster export
(`mplfig_to_npimage`), i.e. performs an actual re-render: neither cached
shortcut is taken, no runtime error occurs before the export. -/
def make_frame_renders (s : RenderState) : Bool :=
  match s.animate, s.cache with
  | false, some _ => false
  | _, _ =>
      if s.n_frames = 0 then false
      else
        let ok := if s.animate then
                    (pyIndex s.frame_times (clamped_index s)).isSome
                  else true
        match s.cache with
        | some _ => if 20 < playhead_step s then ok else false
        | none => ok

/-- The state reached after one successful `make_frame` call, if any. -/
def step_state (t : ℚ) (s : RenderState) : Option RenderState :=
  match make_frame t s with
  | Except.ok (_, s1) => some s1
  | Except.error _ => none

/-- The state reached after `n` successive successful `make_frame` calls,
if all of them succeed. -/
def nth_state (t : ℚ) (s : RenderState) : ℕ → Option RenderState
  | 0 => some s
  | n + 1 =>
      match nth_state t s n with
      | some s1 => step_state t s1
      | none => none

/-- How many of the first `n` successive `make_frame` calls starting from
`s` perform an actual re-render. -/
def render_count (t : ℚ) (s : RenderState) (n : ℕ) : ℕ :=
  (List.range n).countP (fun i =>
    match nth_state t s i with
    | some si => make_frame_renders si
    | none => false)

/-- A concrete figure state used for concrete-input theorems. -/
def fig0 : FigState :=
  { spec_line_x := 0, wf_line_x := 0, time_text := 0, wf_progress_end := 0,
    spec_line_visible := true, wf_line_visible := true, time_box_visible := true,
    wf_progress_visible := true, wf_full_black := false }

/-- A render state with a warm cache whose computed playhead displacement is
exactly the 20-pixel threshold: frame counter 1, two scheduled frames, a
40-pixel-wide axes, so the displacement is `1 * (40 / 2) - 0 = 20`. -/
def s20 : RenderState :=
  { framecounter := 1, frame_times := [0, 10], n_frames := 2, ax_width := 40,
    last_playhead_pos := 0, animate := true, cache := some fig0, fig := fig0 }

/-- The same render state as `s20` but with a cold cache, so that
`make_frame` takes the fresh-render branch. -/
def s_c1 : RenderState :=
  { framecounter := 1, frame_times := [0, 10], n_frames := 2, ax_width := 40,
    last_playhead_pos := 0, animate := true, cache := none, fig := fig0 }

/-- A render state with the animate flag off and a warm cache. -/
def s_freeze : RenderState :=
  { framecounter := 3, frame_times := [0, 10], n_frames := 2, ax_width := 40,
    last_playhead_pos := 5, animate := false, cache := some fig0, fig := fig0 }

/-- C10: `make_frame` never reads its timestamp argument `t`: for every
render state and any two timestamps, the two calls return the identical
image and leave the renderer in the identical successor state. -/
theorem make_frame_timestamp_independent (t1 t2 : ℚ) (s : RenderState) :
    make_frame t1 s = make_frame t2 s := rfl

/-- C8: whenever the animate flag is off and a cached image exists,
`make_frame` returns the cached image unchanged and the successor state is
the input state with only the frame counter advanced by 1 (cache, last
playhead position and all figure artifacts untouched). -/
theorem make_frame_freeze_frame (t : ℚ) (s : RenderState) (img : Image)
    (ha : s.animate = false) (hc : s.cache = some img) :
    make_frame t s = Except.ok (img, { s with framecounter := s.framecounter + 1 }) := by
  rcases s with ⟨fc, ft, nf, aw, lp, an, ca, fg⟩
  obtain rfl : an = false := ha
  obtain rfl : ca = some img := hc
  rfl

/-- Witness for C8 at the concrete state `s_freeze`. -/
theorem make_frame_freeze_frame_witness :
    s_freeze.animate = false ∧ s_freeze.cache = some fig0 ∧
    make_frame 0 s_freeze =
      Except.ok (fig0, { s_freeze with framecounter := s_freeze.framecounter + 1 }) :=
  ⟨rfl, rfl, make_frame_freeze_frame 0 s_freeze fig0 rfl rfl⟩

/-- C9: on an empty frame schedule (`n_frames = 0`, `frame_times = []`),
any `make_frame` call that does not take the animate-off cached shortcut
raises ZeroDivisionError (the displacement computation divides by
`n_frames = 0`) instead of returning a frame. -/
theorem make_frame_empty_schedule_fails (t : ℚ) (s : RenderState)
    (hft : s.frame_times = []) (hn : s.n_frames = 0)
    (hsc : s.animate = true ∨ s.cache = none) :
    make_frame t s = Except.error PyErr.zeroDivisionError := by
  rcases s with ⟨fc, ft, nf, aw, lp, an, ca, fg⟩
  obtain rfl : ft = [] := hft
  obtain rfl : nf = 0 := hn
  cases an with
  | true => cases ca <;> rfl
  | false =>
      cases ca with
      | none => rfl
      | some img => simp at hsc

/-- Witness for C9 at a concrete empty-schedule state. -/
theorem make_frame_empty_schedule_fails_witness :
    ({ framecounter := 0, frame_times := [], n_frames := 0, ax_width := 40,
       last_playhead_pos := 0, animate := true, cache := none,
       fig := fig0 } : RenderState).n_frames = 0 ∧
    make_frame 0 { framecounter := 0, frame_times := [], n_frames := 0,
                   ax_width := 40, last_playhead_pos := 0, animate := true,
                   cache := none, fig := fig0 } =
      Except.error PyErr.zeroDivisionError :=
  ⟨rfl, make_frame_empty_schedule_fails 0 _ rfl rfl (Or.inl rfl)⟩

/-- C1 (failing input): at the concrete state `s_c1` (cache cold, animate
on, frame counter 1, 40-pixel axes, 2 frames), the fresh-render branch
leaves `last_playhead_pos = 40`, not the claimed
`k * (ax_width / n_frames) = 20`: the displacement is added twice
(spectrogram_video.py lines 150 and 159). -/
theorem make_frame_double_advance_bug :
    (make_frame 0 s_c1).map (fun p => p.2.last_playhead_pos) = Except.ok 40 ∧
    (clamped_index s_c1 : ℚ) * (s_c1.ax_width / (s_c1.n_frames : ℚ)) = 20 ∧
    (40 : ℚ) ≠ 20 := by
  refine ⟨?_, ?_, by norm_num⟩
  · norm_num [make_frame, fresh_render, pyIndex, playhead_step, clamped_index,
      s_c1, Except.map]
  · norm_num [clamped_index, s_c1]

/-- C2 (counterexample): at the concrete state `s20` the computed playhead
displacement is exactly the 20-pixel threshold, yet the cached image is
reused and no fresh render happens — refuting the claim that any
displacement at or above the threshold forces a fresh render. -/
theorem make_frame_threshold_cex :
    playhead_step s20 = 20 ∧ s20.cache = some fig0 ∧ s20.animate = true ∧
    make_frame 0 s20 = Except.ok (fig0, { s20 with framecounter := 2 }) ∧
    make_frame_renders s20 = false := by
  refine ⟨by norm_num [playhead_step, clamped_index, s20], rfl, rfl, ?_, ?_⟩
  · norm_num [make_frame, playhead_step, clamped_index, s20]
  · norm_num [make_frame_renders, playhead_step, clamped_index, s20]

/-- C4 (amended): the speed-up computation performs no duration validation:
it raises (ZeroDivisionError) exactly when the audio duration is zero, and
for any nonzero audio duration — including non-positive original
durations — it returns the ratio of the durations without failing. -/
theorem compute_speed_up_failure_semantics (os oe as ae : ℚ) :
    (ae - as ≠ 0 →
      compute_speed_up os oe as ae = Except.ok ((oe - os) / (ae - as))) ∧
    (ae - as = 0 →
      compute_speed_up os oe as ae = Except.error PyErr.zeroDivisionError) := by
  constructor <;> intro h <;> simp [compute_speed_up, h]

/-- C4 (counterexample): a non-positive original duration
(`original_start = 10`, `original_end = 0`) does not fail: the computation
returns `-10`, so no `InvalidDurationError` is raised. -/
theorem compute_speed_up_no_failure_cex :
    (0 : ℚ) - 10 ≤ 0 ∧ compute_speed_up 10 0 0 1 = Except.ok (-10) := by
  constructor
  · norm_num
  · norm_num [compute_speed_up]

/-- Witness for C4 (amended) at a concrete zero audio duration. -/
theorem compute_speed_up_failure_semantics_witness :
    (3 : ℚ) - 3 = 0 ∧
    compute_speed_up 0 1 3 3 = Except.error PyErr.zeroDivisionError :=
  ⟨by norm_num, (compute_speed_up_failure_semantics 0 1 3 3).2 (by norm_num)⟩

/-- C5: for positive durations the computed speed-up factor is exactly
`(original_end - original_start) / (audio_end - audio_start)`, it is
invariant under rescaling all times by a common positive unit factor, and
a 3600-second original mapped to a 36-second audio track gives exactly
100. -/
theorem compute_speed_up_exact (os oe as ae c : ℚ)
    (ho : os < oe) (ha : as < ae) (hc : 0 < c) :
    compute_speed_up os oe as ae = Except.ok ((oe - os) / (ae - as)) ∧
    compute_speed_up (c * os) (c * oe) (c * as) (c * ae) =
      compute_speed_up os oe as ae ∧
    compute_speed_up 0 3600 0 36 = Except.ok 100 := by
  have hane : ae - as ≠ 0 := sub_ne_zero.mpr (ne_of_gt ha)
  have hcane : c * ae - c * as ≠ 0 := by
    rw [← mul_sub]
    exact mul_ne_zero (ne_of_gt hc) hane
  refine ⟨by simp [compute_speed_up, hane], ?_, by norm_num [compute_speed_up]⟩
  simp only [compute_speed_up, if_neg hane, if_neg hcane]
  rw [← mul_sub, ← mul_sub, mul_div_mul_left _ _ (ne_of_gt hc)]

/-- Witness for C5 at the 3600-second / 36-second scenario with a
unit-change factor of 1000. -/
theorem compute_speed_up_exact_witness :
    (0 : ℚ) < 3600 ∧ (0 : ℚ) < 36 ∧ (0 : ℚ) < 1000 ∧
    (compute_speed_up 0 3600 0 36 = Except.ok ((3600 - 0) / (36 - 0)) ∧
     compute_speed_up (1000 * 0) (1000 * 3600) (1000 * 0) (1000 * 36) =
       compute_speed_up 0 3600 0 36 ∧
     compute_speed_up 0 3600 0 36 = Except.ok 100) :=
  ⟨by norm_num, by norm_num, by norm_num,
   compute_speed_up_exact 0 3600 0 36 1000 (by norm_num) (by norm_num) (by norm_num)⟩

/-- Helper: a successful fresh render stores the rendered figure as the new
cache entry. -/
theorem fresh_render_cache (s : RenderState) (k : ℤ) (step : ℚ)
    (img : Image) (s1 : RenderState)
    (h : fresh_render s k step = Except.ok (img, s1)) :
    s1.cache = some img ∧ img = s1.fig := by
  rcases s with ⟨fc, ft, nf, aw, lp, an, ca, fg⟩
  cases an with
  | false =>
      simp only [fresh_render, Bool.false_eq_true, if_false, Except.ok.injEq,
        Prod.mk.injEq] at h
      obtain ⟨rfl, rfl⟩ := h
      exact ⟨rfl, rfl⟩
  | true =>
      cases hpi : pyIndex ft k with
      | none => simp [fresh_render, hpi] at h
      | some ft' =>
          simp only [fresh_render, if_true, hpi, Except.ok.injEq,
            Prod.mk.injEq] at h
          obtain ⟨rfl, rfl⟩ := h
          exact ⟨rfl, rfl⟩

/-- Helper: the cached shortcut of `make_frame`: a warm cache and a
displacement at or below the threshold give the cached image back with only
the frame counter advanced, and no raster export happens. -/
theorem make_frame_cache_hit (t : ℚ) (s : RenderState) (img : Image)
    (hc : s.cache = some img) (hnf : s.n_frames ≠ 0)
    (hstep : playhead_step s ≤ 20) :
    make_frame t s = Except.ok (img, { s with framecounter := s.framecounter + 1 }) ∧
    make_frame_renders s = false := by
  rcases s with ⟨fc, ft, nf, aw, lp, an, ca, fg⟩
  obtain rfl : ca = some img := hc
  cases an with
  | false => exact ⟨rfl, rfl⟩
  | true =>
      constructor
      · simp only [make_frame, if_neg hnf]
        rw [if_pos hstep]
      · simp only [make_frame_renders, if_neg hnf]
        rw [if_neg (not_lt.mpr hstep)]

/-- Helper: no raster export happens on a warm cache while the computed
displacement stays at or below the threshold. -/
theorem make_frame_renders_false_of_warm (s : RenderState)
    (hc : s.cache.isSome = true) (hstep : playhead_step s ≤ 20) :
    make_frame_renders s = false := by
  rcases s with ⟨fc, ft, nf, aw, lp, an, ca, fg⟩
  obtain ⟨img, rfl⟩ := Option.isSome_iff_exists.mp hc
  cases an with
  | false => rfl
  | true =>
      by_cases hnf : nf = 0
      · simp [make_frame_renders, hnf]
      · simp only [make_frame_renders, if_neg hnf]
        rw [if_neg (not_lt.mpr hstep)]

/-- C2 (amended): with the animate flag on and a cached image present
(`n_frames` nonzero, as in any state reached from a non-empty schedule),
the cached image is reused exactly while the computed playhead displacement
is at or below the fixed 20-pixel threshold — reuse also happens at a
displacement of exactly 20 — and a displacement strictly above the
threshold forces the fresh-render path, which on success stores the newly
rendered figure as the new cache entry. -/
theorem make_frame_cache_threshold (t : ℚ) (s : RenderState) (img : Image)
    (ha : s.animate = true) (hc : s.cache = some img) (hnf : s.n_frames ≠ 0) :
    (playhead_step s ≤ 20 →
      make_frame t s = Except.ok (img, { s with framecounter := s.framecounter + 1 }) ∧
      make_frame_renders s = false) ∧
    (20 < playhead_step s →
      make_frame t s = fresh_render s (clamped_index s) (playhead_step s) ∧
      ∀ img1 s1, make_frame t s = Except.ok (img1, s1) →
        s1.cache = some img1 ∧ img1 = s1.fig) := by
  constructor
  · intro hstep
    exact make_frame_cache_hit t s img hc hnf hstep
  · intro hstep
    have hmf : make_frame t s = fresh_render s (clamped_index s) (playhead_step s) := by
      rcases s with ⟨fc, ft, nf, aw, lp, an, ca, fg⟩
      obtain rfl : an = true := ha
      obtain rfl : ca = some img := hc
      simp only [make_frame, if_neg hnf]
      rw [if_neg (not_le.mpr hstep)]
    refine ⟨hmf, ?_⟩
    intro img1 s1 h1
    rw [hmf] at h1
    exact fresh_render_cache s (clamped_index s) (playhead_step s) img1 s1 h1

/-- Witness for C2 (amended) at the concrete state `s20`, whose displacement
is exactly the threshold. -/
theorem make_frame_cache_threshold_witness :
    s20.animate = true ∧ s20.cache = some fig0 ∧ s20.n_frames ≠ 0 ∧
    ((playhead_step s20 ≤ 20 →
      make_frame 0 s20 =
        Except.ok (fig0, { s20 with framecounter := s20.framecounter + 1 }) ∧
      make_frame_renders s20 = false) ∧
    (20 < playhead_step s20 →
      make_frame 0 s20 = fresh_render s20 (clamped_index s20) (playhead_step s20) ∧
      ∀ img1 s1, make_frame 0 s20 = Except.ok (img1, s1) →
        s1.cache = some img1 ∧ img1 = s1.fig)) :=
  ⟨rfl, rfl, by norm_num [s20],
   make_frame_cache_threshold 0 s20 fig0 rfl rfl (by norm_num [s20])⟩

/-- C3 (counterexample): the `render_mpl_new` schedule at
`audio_dur = 9/25` seconds and 10 fps has `int(3.6) = 3` entries, not
`round(3.6) = 4` as the claim demands. -/
theorem build_schedule_count_cex :
    (build_schedule_mpl_new 0 100 10 (9 / 25)).length ≠
      (pyRound ((9 / 25) * 10)).toNat := by
  norm_num [build_schedule_mpl_new, pyInt, pyRound, Int.floor_eq_iff]; decide

/-- C3 (amended): for `fps > 0` and `audio_dur ≥ 0` (and a non-negative
speed-up factor), the moviepy schedule has exactly `round(audio_dur * fps)`
entries while the `render_mpl_new` schedule has `int(audio_dur * fps)`
(truncated) entries; in both, the frame indices are exactly
`0, 1, 2, ...` in order, entry `k` carries the timestamp
`original_start + k * (speed_up_factor / fps)` computed by multiplication
from the frame index, timestamps are non-decreasing, and a zero duration
yields empty schedules without error. -/
theorem build_schedule_spec (os su fps dur : ℚ)
    (hfps : 0 < fps) (hdur : 0 ≤ dur) (hsu : 0 ≤ su) :
    (build_schedule_moviepy os su fps dur).length = (pyRound (dur * fps)).toNat ∧
    (build_schedule_mpl_new os su fps dur).length = (pyInt (dur * fps)).toNat ∧
    (build_schedule_moviepy os su fps dur).map Prod.fst =
      List.range (pyRound (dur * fps)).toNat ∧
    (build_schedule_mpl_new os su fps dur).map Prod.fst =
      List.range (pyInt (dur * fps)).toNat ∧
    (∀ k, k < (build_schedule_moviepy os su fps dur).length →
      (build_schedule_moviepy os su fps dur)[k]? =
        some (k, os + (k : ℚ) * (su / fps))) ∧
    (∀ k, k < (build_schedule_mpl_new os su fps dur).length →
      (build_schedule_mpl_new os su fps dur)[k]? =
        some (k, os + (k : ℚ) * (su / fps))) ∧
    (∀ i j : ℕ, i ≤ j →
      os + (i : ℚ) * (su / fps) ≤ os + (j : ℚ) * (su / fps)) ∧
    (dur = 0 → build_schedule_moviepy os su fps dur = [] ∧
               build_schedule_mpl_new os su fps dur = []) := by
  refine ⟨?_, ?_, ?_, ?_, ?_, ?_, ?_, ?_⟩
  · simp [build_schedule_moviepy]
  · simp [build_schedule_mpl_new]
  · simp only [build_schedule_moviepy, List.map_map]
    exact List.map_id _
  · simp only [build_schedule_mpl_new, List.map_map]
    exact List.map_id _
  · intro k hk
    simp only [build_schedule_moviepy, List.length_map, List.length_range] at hk
    simp only [build_schedule_moviepy]
    rw [List.getElem?_map, List.getElem?_range hk]
    rfl
  · intro k hk
    simp only [build_schedule_mpl_new, List.length_map, List.length_range] at hk
    simp only [build_schedule_mpl_new]
    rw [List.getElem?_map, List.getElem?_range hk]
    rfl
  · intro i j hij
    have h1 : (0 : ℚ) ≤ su / fps := div_nonneg hsu hfps.le
    have h2 : (i : ℚ) ≤ (j : ℚ) := by exact_mod_cast hij
    have := mul_le_mul_of_nonneg_right h2 h1
    linarith
  · intro h
    subst h
    constructor <;> norm_num [build_schedule_moviepy, build_schedule_mpl_new,
      pyRound, pyInt]

/-- Witness for C3 (amended) at the end-to-end scenario: start 0, speed-up
100, 10 fps, 36-second audio duration. -/
theorem build_schedule_spec_witness :
    (0 : ℚ) < 10 ∧ (0 : ℚ) ≤ 36 ∧ (0 : ℚ) ≤ 100 ∧
    ((build_schedule_moviepy 0 100 10 36).length = (pyRound ((36 : ℚ) * 10)).toNat ∧
    (build_schedule_mpl_new 0 100 10 36).length = (pyInt ((36 : ℚ) * 10)).toNat ∧
    (build_schedule_moviepy 0 100 10 36).map Prod.fst =
      List.range (pyRound ((36 : ℚ) * 10)).toNat ∧
    (build_schedule_mpl_new 0 100 10 36).map Prod.fst =
      List.range (pyInt ((36 : ℚ) * 10)).toNat ∧
    (∀ k, k < (build_schedule_moviepy 0 100 10 36).length →
      (build_schedule_moviepy 0 100 10 36)[k]? =
        some (k, 0 + (k : ℚ) * (100 / 10))) ∧
    (∀ k, k < (build_schedule_mpl_new 0 100 10 36).length →
      (build_schedule_mpl_new 0 100 10 36)[k]? =
        some (k, 0 + (k : ℚ) * (100 / 10))) ∧
    (∀ i j : ℕ, i ≤ j →
      0 + (i : ℚ) * (100 / 10) ≤ 0 + (j : ℚ) * (100 / 10)) ∧
    ((36 : ℚ) = 0 → build_schedule_moviepy 0 100 10 36 = [] ∧
                    build_schedule_mpl_new 0 100 10 36 = [])) :=
  ⟨by norm_num, by norm_num, by norm_num,
   build_schedule_spec 0 100 10 36 (by norm_num) (by norm_num) (by norm_num)⟩

/-- Helper: the image produced by a fresh render depends only on the
animate flag, the frame schedule and the figure artifacts — not on the
frame counter. -/
theorem fresh_render_map_fst (s s' : RenderState) (k : ℤ) (step : ℚ)
    (hanim : s.animate = s'.animate) (hft : s.frame_times = s'.frame_times)
    (hfig : s.fig = s'.fig) :
    (fresh_render s k step).map Prod.fst =
      (fresh_render s' k step).map Prod.fst := by
  rcases s with ⟨fc, ft, nf, aw, lp, an, ca, fg⟩
  rcases s' with ⟨fc', ft', nf', aw', lp', an', ca', fg'⟩
  obtain rfl : an = an' := hanim
  obtain rfl : ft = ft' := hft
  obtain rfl : fg = fg' := hfig
  cases an with
  | false => rfl
  | true =>
      cases hpi : pyIndex ft k with
      | none => simp [fresh_render, hpi]
      | some ft1 => simp [fresh_render, hpi, Except.map]

/-- C6: on a non-empty schedule, a `make_frame` request whose frame counter
has reached or passed `n_frames` is clamped to index `n_frames - 1` and
returns the same raster image as a request made at frame counter
`n_frames - 1` in the same state. -/
theorem make_frame_clamp (t : ℚ) (s : RenderState)
    (hne : s.frame_times ≠ []) (hlen : s.n_frames = s.frame_times.length)
    (hk : s.n_frames ≤ s.framecounter) :
    (make_frame t s).map Prod.fst =
      (make_frame t { s with framecounter := s.n_frames - 1 }).map Prod.fst := by
  rcases s with ⟨fc, ft, nf, aw, lp, an, ca, fg⟩
  obtain rfl : nf = ft.length := hlen
  have hk' : ft.length ≤ fc := hk
  have hne' : ft ≠ [] := hne
  have hpos : 0 < ft.length := List.length_pos.mpr hne'
  have hnf : ft.length ≠ 0 := Nat.pos_iff_ne_zero.mp hpos
  have hci : clamped_index ⟨fc, ft, ft.length, aw, lp, an, ca, fg⟩ =
      (ft.length : ℤ) - 1 := by
    unfold clamped_index
    rw [if_pos (by exact_mod_cast hk')]
  have hci' : clamped_index ⟨ft.length - 1, ft, ft.length, aw, lp, an, ca, fg⟩ =
      (ft.length : ℤ) - 1 := by
    unfold clamped_index
    rw [if_neg (by dsimp only; omega)]
    dsimp only
    omega
  have hst : playhead_step ⟨fc, ft, ft.length, aw, lp, an, ca, fg⟩ =
      playhead_step ⟨ft.length - 1, ft, ft.length, aw, lp, an, ca, fg⟩ := by
    unfold playhead_step
    rw [hci, hci']
  cases an with
  | false =>
      cases ca with
      | some img => rfl
      | none =>
          simp only [make_frame, if_neg hnf]
          rw [hst, hci, hci']
          exact fresh_render_map_fst _ _ _ _ rfl rfl rfl
  | true =>
      cases ca with
      | none =>
          simp only [make_frame, if_neg hnf]
          rw [hst, hci, hci']
          exact fresh_render_map_fst _ _ _ _ rfl rfl rfl
      | some img =>
          simp only [make_frame, if_neg hnf]
          rw [hst, hci, hci']
          by_cases hs : playhead_step ⟨ft.length - 1, ft, ft.length, aw, lp,
              true, some img, fg⟩ ≤ 20
          · rw [if_pos hs, if_pos hs]
            rfl
          · rw [if_neg hs, if_neg hs]
            exact fresh_render_map_fst _ _ _ _ rfl rfl rfl

/-- A render state whose frame counter (2) has reached the schedule length,
used as the clamping witness. -/
def s_over : RenderState :=
  { framecounter := 2, frame_times := [0, 10], n_frames := 2, ax_width := 40,
    last_playhead_pos := 0, animate := true, cache := none, fig := fig0 }

/-- Witness for C6 at the concrete state `s_over`. -/
theorem make_frame_clamp_witness :
    s_over.frame_times ≠ [] ∧ s_over.n_frames = s_over.frame_times.length ∧
    s_over.n_frames ≤ s_over.framecounter ∧
    (make_frame 0 s_over).map Prod.fst =
      (make_frame 0 { s_over with framecounter := s_over.n_frames - 1 }).map
        Prod.fst :=
  ⟨by simp [s_over], rfl, by norm_num [s_over],
   make_frame_clamp 0 s_over (by simp [s_over]) rfl (by norm_num [s_over])⟩

/-- Helper: on a non-empty schedule the clamped frame index is a valid
index into `frame_times`. -/
theorem clamped_index_bounds (s : RenderState) (hne : s.frame_times ≠ []) :
    0 ≤ clamped_index s ∧ clamped_index s < (s.frame_times.length : ℤ) := by
  have hpos : 0 < s.frame_times.length := List.length_pos.mpr hne
  unfold clamped_index
  split <;> omega

/-- Helper: indexing within bounds succeeds. -/
theorem pyIndex_isSome_of (xs : List ℚ) (i : ℤ) (h0 : 0 ≤ i)
    (h1 : i < (xs.length : ℤ)) : (pyIndex xs i).isSome = true := by
  simp only [pyIndex, if_neg (not_lt.mpr h0), if_pos h0]
  have hlt : i.toNat < xs.length := by omega
  rw [List.getElem?_eq_getElem hlt]
  rfl

/-- Helper: a fresh render whose index lookup succeeds (it is not needed in
the non-animated branch) returns an image, caches it, advances the frame
counter, and leaves the schedule fields unchanged. -/
theorem fresh_render_ok_of (s : RenderState) (k : ℤ) (step : ℚ)
    (hidx : s.animate = true → (pyIndex s.frame_times k).isSome = true) :
    ∃ img s1, fresh_render s k step = Except.ok (img, s1) ∧
      s1.frame_times = s.frame_times ∧ s1.n_frames = s.n_frames ∧
      s1.cache = some img ∧ s1.framecounter = s.framecounter + 1 := by
  rcases s with ⟨fc, ft, nf, aw, lp, an, ca, fg⟩
  cases an with
  | false => exact ⟨_, _, rfl, rfl, rfl, rfl, rfl⟩
  | true =>
      obtain ⟨ft1, hft1⟩ := Option.isSome_iff_exists.mp (hidx rfl)
      simp only [fresh_render, if_true, hft1]
      exact ⟨_, _, rfl, rfl, rfl, rfl, rfl⟩

/-- Helper: any successful fresh render advances the frame counter by
exactly 1. -/
theorem fresh_render_ok_fields (s : RenderState) (k : ℤ) (step : ℚ)
    (img : Image) (s1 : RenderState)
    (h : fresh_render s k step = Except.ok (img, s1)) :
    s1.framecounter = s.framecounter + 1 := by
  rcases s with ⟨fc, ft, nf, aw, lp, an, ca, fg⟩
  cases an with
  | false =>
      simp only [fresh_render, Bool.false_eq_true, if_false, Except.ok.injEq,
        Prod.mk.injEq] at h
      obtain ⟨-, rfl⟩ := h
      rfl
  | true =>
      cases hpi : pyIndex ft k with
      | none => simp [fresh_render, hpi] at h
      | some ft1 =>
          simp only [fresh_render, if_true, hpi, Except.ok.injEq,
            Prod.mk.injEq] at h
          obtain ⟨-, rfl⟩ := h
          rfl

/-- Helper: every successful `make_frame` call, in every branch, advances
the frame counter by exactly 1. -/
theorem make_frame_ok_framecounter (t : ℚ) (s : RenderState) (img : Image)
    (s1 : RenderState) (h : make_frame t s = Except.ok (img, s1)) :
    s1.framecounter = s.framecounter + 1 := by
  rcases s with ⟨fc, ft, nf, aw, lp, an, ca, fg⟩
  cases an with
  | false =>
      cases ca with
      | some img2 =>
          simp only [make_frame, Except.ok.injEq, Prod.mk.injEq] at h
          obtain ⟨-, rfl⟩ := h
          rfl
      | none =>
          simp only [make_frame] at h
          split at h
          · exact absurd h (by simp)
          · exact fresh_render_ok_fields _ _ _ _ _ h
  | true =>
      cases ca with
      | none =>
          simp only [make_frame] at h
          split at h
          · exact absurd h (by simp)
          · exact fresh_render_ok_fields _ _ _ _ _ h
      | some img2 =>
          simp only [make_frame] at h
          split at h
          · exact absurd h (by simp)
          · split at h
            · simp only [Except.ok.injEq, Prod.mk.injEq] at h
              obtain ⟨-, rfl⟩ := h
              rfl
            · exact fresh_render_ok_fields _ _ _ _ _ h

/-- Helper: in any state whose schedule is non-empty and whose `n_frames`
matches the schedule length (as set up by `render_moviepy`), `make_frame`
succeeds, leaves the schedule fields unchanged, leaves the cache warm, and
advances the frame counter by 1. -/
theorem make_frame_ok_of_inv (t : ℚ) (s : RenderState)
    (hlen : s.n_frames = s.frame_times.length) (hne : s.frame_times ≠ []) :
    ∃ img s1, make_frame t s = Except.ok (img, s1) ∧
      s1.frame_times = s.frame_times ∧ s1.n_frames = s.n_frames ∧
      s1.cache.isSome = true ∧ s1.framecounter = s.framecounter + 1 := by
  have hidx : (pyIndex s.frame_times (clamped_index s)).isSome = true := by
    obtain ⟨h0, h1⟩ := clamped_index_bounds s hne
    exact pyIndex_isSome_of _ _ h0 h1
  have hnf : s.n_frames ≠ 0 := by
    rw [hlen]
    exact Nat.pos_iff_ne_zero.mp (List.length_pos.mpr hne)
  rcases s with ⟨fc, ft, nf, aw, lp, an, ca, fg⟩
  cases an with
  | false =>
      cases ca with
      | some img => exact ⟨img, _, rfl, rfl, rfl, rfl, rfl⟩
      | none =>
          simp only [make_frame, if_neg hnf]
          obtain ⟨img, s1, h, h2, h3, h4, h5⟩ :=
            fresh_render_ok_of ⟨fc, ft, nf, aw, lp, false, none, fg⟩
              (clamped_index ⟨fc, ft, nf, aw, lp, false, none, fg⟩)
              (playhead_step ⟨fc, ft, nf, aw, lp, false, none, fg⟩)
              (fun hh => nomatch hh)
          exact ⟨img, s1, h, h2, h3, Option.isSome_iff_exists.mpr ⟨img, h4⟩, h5⟩
  | true =>
      cases ca with
      | none =>
          simp only [make_frame, if_neg hnf]
          obtain ⟨img, s1, h, h2, h3, h4, h5⟩ :=
            fresh_render_ok_of ⟨fc, ft, nf, aw, lp, true, none, fg⟩
              (clamped_index ⟨fc, ft, nf, aw, lp, true, none, fg⟩)
              (playhead_step ⟨fc, ft, nf, aw, lp, true, none, fg⟩)
              (fun _ => hidx)
          exact ⟨img, s1, h, h2, h3, Option.isSome_iff_exists.mpr ⟨img, h4⟩, h5⟩
      | some img =>
          by_cases hs : playhead_step ⟨fc, ft, nf, aw, lp, true, some img, fg⟩ ≤ 20
          · refine ⟨img, ⟨fc + 1, ft, nf, aw, lp, true, some img, fg⟩, ?_, rfl,
              rfl, rfl, rfl⟩
            simp only [make_frame, if_neg hnf]
            rw [if_pos hs]
          · simp only [make_frame, if_neg hnf]
            rw [if_neg hs]
            obtain ⟨img1, s1, h, h2, h3, h4, h5⟩ :=
              fresh_render_ok_of ⟨fc, ft, nf, aw, lp, true, some img, fg⟩
                (clamped_index ⟨fc, ft, nf, aw, lp, true, some img, fg⟩)
                (playhead_step ⟨fc, ft, nf, aw, lp, true, some img, fg⟩)
                (fun _ => hidx)
            exact ⟨img1, s1, h, h2, h3, Option.isSome_iff_exists.mpr ⟨img1, h4⟩, h5⟩

/-- Helper: the trajectory invariant — each state along a run from a state
with a consistent non-empty schedule exists, keeps the schedule fields, and
(after the first call) has a warm cache. -/
theorem nth_state_inv (t : ℚ) (s : RenderState)
    (hlen : s.n_frames = s.frame_times.length) (hne : s.frame_times ≠ []) :
    ∀ i : ℕ, ∃ si, nth_state t s i = some si ∧
      si.frame_times = s.frame_times ∧ si.n_frames = s.n_frames ∧
      (i ≠ 0 → si.cache.isSome = true) := by
  intro i
  induction i with
  | zero => exact ⟨s, rfl, rfl, rfl, fun h => absurd rfl h⟩
  | succ n ih =>
      obtain ⟨sn, hsn, hft, hnf, -⟩ := ih
      have hlen' : sn.n_frames = sn.frame_times.length := by rw [hft, hnf, hlen]
      have hne' : sn.frame_times ≠ [] := by rw [hft]; exact hne
      obtain ⟨img, s1, hmk, h2, h3, h4, h5⟩ := make_frame_ok_of_inv t sn hlen' hne'
      refine ⟨s1, ?_, by rw [h2, hft], by rw [h3, hnf], fun _ => h4⟩
      simp only [nth_state, hsn, step_state, hmk]

/-- C7: starting from any reachable state with a consistent non-empty
schedule, if the computed playhead displacement stays at or below the
20-pixel threshold at every step of a run of `n` calls, then every call
succeeds, at most one of them performs an actual re-render (raster export),
and every successful `make_frame` call — cache hit, animate off, or fresh
render — advances the frame counter by exactly 1. -/
theorem make_frame_cache_skip (n : ℕ) (t : ℚ) (s : RenderState)
    (hlen : s.n_frames = s.frame_times.length) (hne : s.frame_times ≠ [])
    (hdisp : ∀ i si, i < n → nth_state t s i = some si → playhead_step si ≤ 20) :
    (∀ i, i ≤ n → (nth_state t s i).isSome = true) ∧
    render_count t s n ≤ 1 ∧
    (∀ s1 img s2, make_frame t s1 = Except.ok (img, s2) →
      s2.framecounter = s1.framecounter + 1) := by
  refine ⟨?_, ?_, ?_⟩
  · intro i _
    obtain ⟨si, hsi, -, -, -⟩ := nth_state_inv t s hlen hne i
    rw [hsi]
    rfl
  · have hp : ∀ i ∈ List.range n,
        ((fun i => match nth_state t s i with
          | some si => make_frame_renders si
          | none => false) i) = true → ((i == 0) = true) := by
      intro i hi hpi
      rw [List.mem_range] at hi
      rcases Nat.eq_zero_or_pos i with rfl | hip
      · rfl
      · exfalso
        obtain ⟨si, hsi, -, -, hcache⟩ := nth_state_inv t s hlen hne i
        simp only [hsi] at hpi
        have hstep := hdisp i si hi hsi
        have hfr := make_frame_renders_false_of_warm si
          (hcache (Nat.pos_iff_ne_zero.mp hip)) hstep
        rw [hfr] at hpi
        exact Bool.false_ne_true hpi
    calc render_count t s n
        ≤ (List.range n).countP (fun i => i == 0) := List.countP_mono_left hp
      _ = (List.range n).count 0 := rfl
      _ ≤ 1 := List.nodup_iff_count_le_one.mp (List.nodup_range n) 0
  · intro s1 img s2 h
    exact make_frame_ok_framecounter t s1 img s2 h

/-- A warm-cache starting state whose displacements stay far below the
threshold, used as the cache-skip witness. -/
def s_warm : RenderState :=
  { framecounter := 0, frame_times := [0, 10], n_frames := 2, ax_width := 10,
    last_playhead_pos := 0, animate := true, cache := some fig0, fig := fig0 }

/-- Witness for C7 at the concrete state `s_warm` with a one-call run. -/
theorem make_frame_cache_skip_witness :
    s_warm.n_frames = s_warm.frame_times.length ∧ s_warm.frame_times ≠ [] ∧
    ((∀ i, i ≤ 1 → (nth_state 0 s_warm i).isSome = true) ∧
     render_count 0 s_warm 1 ≤ 1 ∧
     (∀ s1 img s2, make_frame 0 s1 = Except.ok (img, s2) →
       s2.framecounter = s1.framecounter + 1)) :=
  ⟨rfl, by simp [s_warm],
   make_frame_cache_skip 1 0 s_warm rfl (by simp [s_warm])
     (by
       intro i si hi hsi
       have hz : i = 0 := by omega
       subst hz
       simp only [nth_state, Option.some.injEq] at hsi
       subst hsi
       norm_num [playhead_step, clamped_index, s_warm])⟩
